import Mathlib

namespace GPM

/-!
Verification of the GPM GPU/LLM observability service against its
natural-language specification.  The Rust sources under `gpm-core` are
shallowly embedded: strings are `List Char`, machine integers are `Nat`
(all relevant arithmetic stays far below the 64-bit overflow boundary),
floating-point session metrics are represented over `ℚ` (every value the
claims mention is exactly representable in an IEEE double, so the
rational model agrees with the Rust `f64` computation on those inputs),
and fallible operations return `Option`.
-/

/-- Case-insensitive helpers mirror Rust `str::to_lowercase` (the inputs
involved are ASCII, where `Char.toLower` agrees with Rust). -/
def lowerStr (s : List Char) : List Char := s.map Char.toLower

/-- `startsList pre s` : `pre` is a leading segment of `s`
(Rust `str::starts_with` / `Path::starts_with` at string level). -/
def startsList : List Char → List Char → Bool
  | [], _ => true
  | _ :: _, [] => false
  | a :: as, b :: bs => a == b && startsList as bs

/-- `strHas hay needle` : `needle` occurs contiguously in `hay`
(Rust `str::contains`). -/
def strHas (hay needle : List Char) : Bool :=
  match hay with
  | [] => startsList needle []
  | _ :: tl => startsList needle hay || strHas tl needle

/-- `endsList suf s` : `s` ends with `suf` (Rust `str::ends_with`). -/
def endsList (suf s : List Char) : Bool :=
  startsList suf.reverse s.reverse

/-! ## Process classifier (`src/gpm-core/src/classifier.rs`) -/

/-- `WorkloadCategory` from `classifier.rs`. -/
inductive WorkloadCategory where
  | Gaming
  | LlmInference
  | MlTraining
  | GeneralCompute
  | Unknown
deriving DecidableEq, Repr

/-- The environment-dependent part of `ProcessClassifier`: the Steam
library roots discovered at construction time.  Paths are modelled as
strings. -/
structure ClassifierCtx where
  steam_library_paths : List (List Char)

/-- `ProcessClassifier::is_in_steam_library`: the exe path lies under one
of the discovered Steam roots. -/
def is_in_steam_library (ctx : ClassifierCtx) (path : List Char) : Bool :=
  ctx.steam_library_paths.any fun steamPath => startsList steamPath path

/-- Regex `(?i).*\.exe$` from `game_patterns[0]`. -/
def matchesExeSuffix (low : List Char) : Bool :=
  endsList (".exe".data) low

/-- Regex `(?i).*-dx12\.exe$` from `game_patterns[1]`. -/
def matchesDx12 (low : List Char) : Bool :=
  endsList ("-dx12.exe".data) low

/-- Regex `(?i).*-vulkan\.exe$` from `game_patterns[2]`. -/
def matchesVulkan (low : List Char) : Bool :=
  endsList ("-vulkan.exe".data) low

/-- Regex `(?i).*game.*\.exe$` from `game_patterns[3]`: "game" occurs,
followed (possibly after more characters) by a final ".exe". -/
def matchesGameExe (low : List Char) : Bool :=
  endsList (".exe".data) low && strHas (low.take (low.length - 4)) ("game".data)

/-- Regex `(?i).*(unity|unreal).*\.exe$` from `game_patterns[4]`. -/
def matchesUnityUnreal (low : List Char) : Bool :=
  endsList (".exe".data) low &&
    (strHas (low.take (low.length - 4)) ("unity".data) ||
     strHas (low.take (low.length - 4)) ("unreal".data))

/-- The pattern loop of `ProcessClassifier::is_game`: any of the five
case-insensitive game regexes matches the process name. -/
def anyGamePattern (name : List Char) : Bool :=
  let low := lowerStr name
  matchesExeSuffix low || matchesDx12 low || matchesVulkan low ||
    matchesGameExe low || matchesUnityUnreal low

/-- `ProcessClassifier::is_game`. -/
def is_game (ctx : ClassifierCtx) (name : List Char)
    (exe_path : Option (List Char)) (gpu_util : Nat) : Bool :=
  match exe_path with
  | some path =>
      if is_in_steam_library ctx path then true
      else if strHas (lowerStr path) ("game".data) then true
      else anyGamePattern name && gpu_util > 60
  | none => anyGamePattern name && gpu_util > 60

/-- `ProcessClassifier::is_python_ml`: a python-named process whose
command line mentions an ML keyword. -/
def is_python_ml (name cmdline : List Char) : Bool :=
  if !(strHas (lowerStr name) ("python".data)) then false
  else
    [("transformers".data), ("torch".data), ("tensorflow".data), ("keras".data),
     ("pytorch".data), ("jax".data), ("flax".data), ("diffusers".data), ("vllm".data),
     ("llama".data), ("huggingface".data), ("model.py".data), ("train.py".data)
    ].any fun kw => strHas (lowerStr cmdline) kw

/-- `ProcessClassifier::is_ml_framework`. -/
def is_ml_framework (cmdline : List Char) : Bool :=
  let low := lowerStr cmdline
  strHas low ("tensorflow".data) || strHas low ("torch".data) ||
    strHas low ("jax".data) || strHas low ("mxnet".data)

/-- `ProcessClassifier::looks_like_inference`. -/
def looks_like_inference (cmdline : List Char) : Bool :=
  let low := lowerStr cmdline
  strHas low ("generate".data) || strHas low ("inference".data) ||
    strHas low ("predict".data) || strHas low ("serve".data) ||
    strHas low ("api".data)

/-- `ProcessClassifier::determine_category`. -/
def determine_category (ctx : ClassifierCtx) (name cmdline : List Char)
    (exe_path : Option (List Char)) (gpu_util : Nat) : WorkloadCategory :=
  if strHas (lowerStr name) ("ollama".data) then WorkloadCategory.LlmInference
  else if is_ml_framework cmdline then WorkloadCategory.MlTraining
  else if is_python_ml name cmdline then
    if looks_like_inference cmdline then WorkloadCategory.LlmInference
    else WorkloadCategory.MlTraining
  else if is_game ctx name exe_path gpu_util then WorkloadCategory.Gaming
  else WorkloadCategory.GeneralCompute

/-! Spec-side mirror of the classification ordering, written from the
specification's rule list (§4.B): first match wins, with the keyword
sets spelled out as the spec enumerates them.  Used to compare the
source-derived `determine_category` against the spec's wording. -/

/-- The ML-framework substrings of spec rule 2. -/
def specFrameworkWords : List (List Char) :=
  [("tensorflow".data), ("torch".data), ("jax".data), ("mxnet".data)]

/-- The ML keyword substrings of spec rule 3. -/
def specMlKeywords : List (List Char) :=
  [("transformers".data), ("torch".data), ("tensorflow".data), ("keras".data),
   ("pytorch".data), ("jax".data), ("flax".data), ("diffusers".data), ("vllm".data),
   ("llama".data), ("huggingface".data), ("model.py".data), ("train.py".data)]

/-- The sub-decision substrings of spec rule 3 (inference-like command line). -/
def specInferWords : List (List Char) :=
  [("generate".data), ("inference".data), ("predict".data), ("serve".data), ("api".data)]

/-- Classification as the specification words it: rules applied in order,
first match wins; rule 4 is the game heuristic, rule 5 the fallback. -/
def specCategory (ctx : ClassifierCtx) (name cmdline : List Char)
    (exe_path : Option (List Char)) (gpu_util : Nat) : WorkloadCategory :=
  if strHas (lowerStr name) ("ollama".data) then WorkloadCategory.LlmInference
  else if specFrameworkWords.any (fun kw => strHas (lowerStr cmdline) kw) then
    WorkloadCategory.MlTraining
  else if strHas (lowerStr name) ("python".data) &&
      specMlKeywords.any (fun kw => strHas (lowerStr cmdline) kw) then
    if specInferWords.any (fun kw => strHas (lowerStr cmdline) kw) then
      WorkloadCategory.LlmInference
    else WorkloadCategory.MlTraining
  else if is_game ctx name exe_path gpu_util then WorkloadCategory.Gaming
  else WorkloadCategory.GeneralCompute

/-! ## LLM session tracker (`src/gpm-core/src/ollama.rs`)

Instants (`chrono::DateTime<Utc>`) are modelled as `Nat` milliseconds
since an arbitrary epoch; `now` is passed explicitly where the Rust code
calls `chrono::Utc::now()`.  `f64` metric fields are modelled over `ℚ`. -/

/-- `OllamaApiResponse` from `ollama.rs`: one decoded streaming chunk. -/
structure OllamaApiResponse where
  model : List Char
  created_at : List Char
  response : Option (List Char)
  done : Bool
  eval_count : Option Nat
  eval_duration : Option Nat
  prompt_eval_count : Option Nat
  prompt_eval_duration : Option Nat
deriving DecidableEq, Repr

/-- `LlmSession` from `ollama.rs`: one finalized generation session. -/
structure LlmSession where
  id : List Char
  start_time : Nat
  end_time : Option Nat
  model : List Char
  prompt_tokens : Nat
  completion_tokens : Nat
  total_tokens : Nat
  tokens_per_second : ℚ
  time_to_first_token_ms : Option Nat
  time_per_output_token_ms : Option ℚ
deriving DecidableEq, Repr

/-- `SessionTracker` from `ollama.rs`: the in-progress partial session. -/
structure SessionTracker where
  session_id : List Char
  model : List Char
  start_time : Nat
  first_token_time : Option Nat
  prompt_tokens : Nat
  completion_tokens : Nat
  prompt_eval_duration_ns : Nat
  eval_duration_ns : Nat
deriving DecidableEq, Repr

/-- The mutable state of `OllamaMonitor`: the `active_sessions` map
(modelled as an association list keyed by session id) and the
`completed_sessions` buffer. -/
structure MonitorState where
  active_sessions : List (List Char × SessionTracker)
  completed_sessions : List LlmSession
deriving DecidableEq, Repr

/-- `HashMap` lookup on the association-list model. -/
def lookupSession : List (List Char × SessionTracker) → List Char → Option SessionTracker
  | [], _ => none
  | (k, v) :: tl, sid => if k = sid then some v else lookupSession tl sid

/-- `HashMap` write-back on the association-list model: replace the
entry for `sid` in place, or append it when absent (the Rust
`entry(..).or_insert_with(..)` followed by in-place mutation). -/
def updateSession : List (List Char × SessionTracker) → List Char → SessionTracker →
    List (List Char × SessionTracker)
  | [], sid, tr => [(sid, tr)]
  | (k, v) :: tl, sid, tr =>
      if k = sid then (sid, tr) :: tl else (k, v) :: updateSession tl sid tr

/-- The per-chunk tracker update inside `OllamaMonitor::track_generation`:
set `first_token_time` on the first chunk carrying a response payload,
then overwrite (never accumulate) the counter and duration fields that
the chunk carries. -/
def applyChunk (tracker : SessionTracker) (resp : OllamaApiResponse) (now : Nat) :
    SessionTracker :=
  let tracker := if tracker.first_token_time.isNone && resp.response.isSome then
      { tracker with first_token_time := some now } else tracker
  let tracker := match resp.prompt_eval_count with
    | some c => { tracker with prompt_tokens := c }
    | none => tracker
  let tracker := match resp.eval_count with
    | some c => { tracker with completion_tokens := c }
    | none => tracker
  let tracker := match resp.prompt_eval_duration with
    | some d => { tracker with prompt_eval_duration_ns := d }
    | none => tracker
  let tracker := match resp.eval_duration with
    | some d => { tracker with eval_duration_ns := d }
    | none => tracker
  tracker

/-- `OllamaMonitor::finalize_session` (with `end_time` passed in for the
`chrono::Utc::now()` call). -/
def finalize_session (tracker : SessionTracker) (end_time : Nat) : LlmSession :=
  let total_tokens := tracker.prompt_tokens + tracker.completion_tokens
  let tokens_per_second : ℚ :=
    if tracker.eval_duration_ns > 0 then
      (tracker.completion_tokens : ℚ) * 1000000000 / (tracker.eval_duration_ns : ℚ)
    else 0
  let time_to_first_token_ms : Option Nat :=
    tracker.first_token_time.map (fun t => t - tracker.start_time)
  let time_per_output_token_ms : Option ℚ :=
    if tracker.completion_tokens > 0 && tracker.eval_duration_ns > 0 then
      some ((tracker.eval_duration_ns : ℚ) / 1000000 / (tracker.completion_tokens : ℚ))
    else none
  { id := tracker.session_id
    start_time := tracker.start_time
    end_time := some end_time
    model := tracker.model
    prompt_tokens := tracker.prompt_tokens
    completion_tokens := tracker.completion_tokens
    total_tokens := total_tokens
    tokens_per_second := tokens_per_second
    time_to_first_token_ms := time_to_first_token_ms
    time_per_output_token_ms := time_per_output_token_ms }

/-- `OllamaMonitor::track_generation`: fetch or create the partial for
`session_id`, fold the chunk in, write it back, and when the chunk is
terminal push the finalized session onto the completed buffer.  Note
that the Rust code never removes the entry from `active_sessions`. -/
def track_generation (st : MonitorState) (session_id model : List Char)
    (resp : OllamaApiResponse) (now : Nat) : MonitorState :=
  let tracker0 : SessionTracker :=
    match lookupSession st.active_sessions session_id with
    | some tr => tr
    | none =>
        { session_id := session_id, model := model, start_time := now
          first_token_time := none, prompt_tokens := 0, completion_tokens := 0
          prompt_eval_duration_ns := 0, eval_duration_ns := 0 }
  let tracker := applyChunk tracker0 resp now
  let active := updateSession st.active_sessions session_id tracker
  if resp.done then
    { active_sessions := active
      completed_sessions := st.completed_sessions ++ [finalize_session tracker now] }
  else
    { active_sessions := active, completed_sessions := st.completed_sessions }

/-- A concrete terminal chunk used to exercise repeated finalization. -/
def doneChunk : OllamaApiResponse :=
  { model := ("llama2".data), created_at := []
    response := some ("x".data), done := true
    eval_count := some 3, eval_duration := some 300000000
    prompt_eval_count := some 10, prompt_eval_duration := some 50000000 }

/-- The first chunk of scenario S5. -/
def s5Chunk1 : OllamaApiResponse :=
  { model := ("llama2".data), created_at := []
    response := some ("Hello".data), done := false
    eval_count := some 1, eval_duration := some 100000000
    prompt_eval_count := some 10, prompt_eval_duration := none }

/-- The second (terminal) chunk of scenario S5. -/
def s5Chunk2 : OllamaApiResponse :=
  { model := ("llama2".data), created_at := []
    response := some (" world!".data), done := true
    eval_count := some 3, eval_duration := some 300000000
    prompt_eval_count := some 10, prompt_eval_duration := none }

/-! ## Ollama reverse proxy (`src/gpm-core/src/proxy.rs`) -/

/-- Split a string at every occurrence of `sep`, keeping empty segments
(Rust `str::split`). -/
def splitSepAux (sep : Char) : List Char → List Char → List (List Char)
  | [], acc => [acc.reverse]
  | c :: tl, acc =>
      if c == sep then acc.reverse :: splitSepAux sep tl []
      else splitSepAux sep tl (c :: acc)

/-- `str::split(sep)`. -/
def splitSep (sep : Char) (s : List Char) : List (List Char) :=
  splitSepAux sep s []

/-- Strip one trailing carriage return (part of Rust `str::lines`). -/
def stripCr (l : List Char) : List Char :=
  if l.getLast? = some '\r' then l.dropLast else l

/-- Rust `str::lines`: split on `'\n'`, strip a trailing `'\r'` from
each line, and do not yield a final empty line after a trailing
newline. -/
def rustLines (text : List Char) : List (List Char) :=
  let parts := splitSep '\n' text
  let parts := if parts.getLast? = some [] then parts.dropLast else parts
  parts.map stripCr

/-- Rust `str::trim` (whitespace stripped from both ends). -/
def trimStr (l : List Char) : List Char :=
  ((l.dropWhile Char.isWhitespace).reverse.dropWhile Char.isWhitespace).reverse

/-- The line loop of `parse_streaming_chunk`: skip blank lines, return
the first line the JSON decoder accepts, and give up at the end. -/
def scanLines (dec : List Char → Option OllamaApiResponse) :
    List (List Char) → Option OllamaApiResponse
  | [] => none
  | l :: ls =>
      let trimmed := trimStr l
      if trimmed.isEmpty then scanLines dec ls
      else
        match dec trimmed with
        | some r => some r
        | none => scanLines dec ls

/-- `parse_streaming_chunk` from `proxy.rs`, with the `serde_json`
record decoder abstracted as `dec` (the function is parametric in how a
single line decodes; its own contribution is the line iteration). -/
def parse_streaming_chunk (dec : List Char → Option OllamaApiResponse)
    (text : List Char) : Option OllamaApiResponse :=
  scanLines dec (rustLines text)

/-- The per-chunk tee in `proxy_handler`'s `tracked_stream`: at most one
`track_generation` call per chunk, fed with the result of
`parse_streaming_chunk` when there is one. -/
def fedRecords (dec : List Char → Option OllamaApiResponse)
    (chunk : List Char) : List OllamaApiResponse :=
  (parse_streaming_chunk dec chunk).toList

/-- A two-line decoder for the C2 counterexample: line `"A"` and line
`"B"` each decode to distinct records. -/
def decAB (l : List Char) : Option OllamaApiResponse :=
  if l = ("A".data) then
    some { model := ("m".data), created_at := [], response := some ("a".data)
           done := false, eval_count := some 1, eval_duration := none
           prompt_eval_count := none, prompt_eval_duration := none }
  else if l = ("B".data) then
    some { model := ("m".data), created_at := [], response := some ("b".data)
           done := true, eval_count := some 2, eval_duration := none
           prompt_eval_count := none, prompt_eval_duration := none }
  else none

/-- An HTTP header value as the proxy sees it: the text of the value and
whether `HeaderValue::to_str` succeeds on it (it fails on values that
are not visible ASCII). -/
structure HeaderValue where
  text : List Char
  valid : Bool
deriving DecidableEq, Repr

/-- The request-header forwarding loop of `proxy_handler` (proxy.rs
lines 102-108): keep every header whose name is neither `host` nor
`content-length` and whose value converts with `to_str`. -/
def forward_request_headers (headers : List (List Char × HeaderValue)) :
    List (List Char × HeaderValue) :=
  headers.filter fun h =>
    !(h.1 = ("host".data)) && !(h.1 = ("content-length".data)) && h.2.valid

/-- The upstream URL built by `proxy_handler`:
`format!("{}{}{}", backend, path, query)` where `query` is rendered as
`?q` when present. -/
def backend_url (backend path : List Char) (query : Option (List Char)) :
    List Char :=
  backend ++ path ++ (match query with
    | some q => '?' :: q
    | none => [])

/-! ## GPU backend (`src/gpm-core/src/gpu/nvml.rs`) -/

/-- `GpuProcess` from `nvml.rs`. -/
structure GpuProcess where
  pid : Nat
  name : List Char
  used_gpu_memory : Nat
deriving DecidableEq, Repr

/-- `GpuMetrics` from `nvml.rs` (the spec's `GpuSample`), with the
timestamp modelled as `Nat` milliseconds. -/
structure GpuMetrics where
  timestamp : Nat
  gpu_id : Nat
  name : List Char
  utilization_gpu : Nat
  utilization_memory : Nat
  memory_used : Nat
  memory_total : Nat
  temperature : Nat
  power_usage : Nat
  processes : List GpuProcess
deriving DecidableEq, Repr

/-- A raw NVML process record: pid plus `UsedGpuMemory`
(`Used bytes` modelled as `some`, `Unavailable` as `none`). -/
structure RawProc where
  pid : Nat
  used_gpu_memory : Option Nat
deriving DecidableEq, Repr

/-- Stable insertion (descending by `used_gpu_memory`): an element goes
in front of the first strictly smaller key, after equal keys — the
order `sort_by_key(Reverse(used_gpu_memory))` (a stable sort) yields. -/
def insertDesc (p : GpuProcess) : List GpuProcess → List GpuProcess
  | [] => [p]
  | q :: qs =>
      if q.used_gpu_memory ≤ p.used_gpu_memory then p :: q :: qs
      else q :: insertDesc p qs

/-- Stable sort, descending by `used_gpu_memory`. -/
def sortDesc : List GpuProcess → List GpuProcess
  | [] => []
  | p :: ps => insertDesc p (sortDesc ps)

/-- The list is ordered descending by `used_gpu_memory`. -/
def sortedByMemDesc : List GpuProcess → Bool
  | [] => true
  | [_] => true
  | p :: q :: rest =>
      (q.used_gpu_memory ≤ p.used_gpu_memory) && sortedByMemDesc (q :: rest)

/-- `NvmlMonitor::get_running_processes`: chain the compute processes
with the graphics processes (in that order), resolve each name via the
per-PID OS query (`nameOf`, with its `pid_<PID>` fallback folded in),
map `Unavailable` memory to 0, and sort descending by used memory.  No
deduplication of PIDs occurs. -/
def get_running_processes (nameOf : Nat → List Char)
    (compute_processes graphics_processes : List RawProc) : List GpuProcess :=
  let all_processes := (compute_processes ++ graphics_processes).map fun p =>
    { pid := p.pid, name := nameOf p.pid
      used_gpu_memory := p.used_gpu_memory.getD 0 : GpuProcess }
  sortDesc all_processes

/-- `ClassifiedProcess` from `classifier.rs`. -/
structure ClassifiedProcess where
  pid : Nat
  name : List Char
  category : WorkloadCategory
  gpu_memory_mb : Nat
  gpu_utilization : Nat
  command_line : List Char
  exe_path : Option (List Char)
deriving DecidableEq, Repr

/-- `HashMap::insert` on an association-list model: overwrite the value
for an existing key in place, append otherwise. -/
def insertPidMap (m : List (Nat × (Nat × Nat))) (pid : Nat) (v : Nat × Nat) :
    List (Nat × (Nat × Nat)) :=
  match m with
  | [] => [(pid, v)]
  | (k, w) :: tl =>
      if k = pid then (pid, v) :: tl else (k, w) :: insertPidMap tl pid v

/-- Lookup in the pid-keyed map. -/
def lookupPidMap : List (Nat × (Nat × Nat)) → Nat → Option (Nat × Nat)
  | [], _ => none
  | (k, v) :: tl, pid => if k = pid then some v else lookupPidMap tl pid

/-- The `pid_to_metrics` map built by
`ProcessClassifier::classify_gpu_processes`: for every sample and every
process in its (already sorted) process list, insert
`pid → (used_gpu_memory, device utilization)`; a later insertion for
the same pid overwrites the earlier one. -/
def pid_to_metrics (gpu_metrics : List GpuMetrics) : List (Nat × (Nat × Nat)) :=
  gpu_metrics.foldl
    (fun m metrics =>
      metrics.processes.foldl
        (fun m proc =>
          insertPidMap m proc.pid (proc.used_gpu_memory, metrics.utilization_gpu))
        m)
    []

/-! ## CSV probe parsing (`NvmlFallbackMonitor::parse_nvidia_smi_line`) -/

/-- Accumulate decimal digits; fail on any non-digit
(the digit loop of Rust integer parsing). -/
def parseDigitsGo : List Char → Nat → Option Nat
  | [], acc => some acc
  | c :: tl, acc =>
      if c.isDigit then parseDigitsGo tl (acc * 10 + (c.toNat - 48)) else none

/-- At least one digit, all digits. -/
def parseDigitsNE (l : List Char) : Option Nat :=
  if l.isEmpty then none else parseDigitsGo l 0

def U32_MAX : Nat := 4294967295

def U64_MAX : Nat := 18446744073709551615

/-- Rust `str::parse` for an unsigned integer type with maximum value
`bound`: an optional leading `'+'`, one or more digits, and the value
must fit. -/
def parseUnsigned (bound : Nat) (s : List Char) : Option Nat :=
  let s := match s with
    | '+' :: tl => tl
    | _ => s
  match parseDigitsNE s with
  | some v => if v ≤ bound then some v else none
  | none => none

/-- Rust `str::parse::<f64>` restricted to the plain decimal forms the
probe produces: optional sign, integer digits, optional fraction
(`digits`, `digits.digits`, `digits.`, `.digits`).  Exact over `ℚ` —
every nvidia-smi power figure (one fractional decimal digit) is
exactly representable in an IEEE double. -/
def stripSign (s : List Char) : Bool × List Char :=
  match s with
  | [] => (false, [])
  | c :: tl =>
      if c = '-' then (true, tl)
      else if c = '+' then (false, tl)
      else (false, c :: tl)

def parseDecimal (s : List Char) : Option ℚ :=
  let sp := stripSign s
  let neg := sp.1
  let s := sp.2
  match splitSep '.' s with
  | [ip] => (parseDigitsNE ip).map fun n => if neg then -(n : ℚ) else (n : ℚ)
  | [ip, fp] =>
      if (ip.all Char.isDigit && fp.all Char.isDigit) &&
          !(ip.isEmpty && fp.isEmpty) then
        let ipv := (parseDigitsGo ip 0).getD 0
        let fpv := (parseDigitsGo fp 0).getD 0
        let q : ℚ := (ipv : ℚ) + (fpv : ℚ) / (10 ^ fp.length : ℚ)
        some (if neg then -q else q)
      else none
  | _ => none

/-- Rust `as u32` on an `f64`: truncate toward zero, saturating at the
bounds of `u32`. -/
def f64_as_u32 (q : ℚ) : Nat :=
  if q < 0 then 0 else min U32_MAX (⌊q⌋).toNat

/-- `NvmlFallbackMonitor::parse_nvidia_smi_line` (with `now` standing in
for `chrono::Utc::now()`): split on commas, trim each part, require at
least 8 parts, parse the numeric fields (memory fields in MiB converted
to bytes, power as a float truncated to integer), empty process list. -/
def parse_nvidia_smi_line (now : Nat) (line : List Char) : Option GpuMetrics :=
  let parts := (splitSep ',' line).map trimStr
  if parts.length < 8 then none
  else
    match parseUnsigned U32_MAX (parts.getD 0 []),
        parseUnsigned U32_MAX (parts.getD 2 []),
        parseUnsigned U32_MAX (parts.getD 3 []),
        parseUnsigned U64_MAX (parts.getD 4 []),
        parseUnsigned U64_MAX (parts.getD 5 []),
        parseUnsigned U32_MAX (parts.getD 6 []),
        parseDecimal (parts.getD 7 []) with
    | some gpu_id, some util_gpu, some util_mem, some mem_used, some mem_total,
        some temp, some power =>
        some { timestamp := now
               gpu_id := gpu_id
               name := parts.getD 1 []
               utilization_gpu := util_gpu
               utilization_memory := util_mem
               memory_used := mem_used * 1024 * 1024
               memory_total := mem_total * 1024 * 1024
               temperature := temp
               power_usage := f64_as_u32 power
               processes := [] }
    | _, _, _, _, _, _, _ => none

/-- A concrete process-name resolver for the C3 counterexample. -/
def cNameOf : Nat → List Char := fun _ => ("proc".data)

/-- The S1 probe line. -/
def s1Line : List Char :=
  ("0, NVIDIA GeForce RTX 3080, 45, 30, 8192, 10240, 65, 250.5".data)

/-! ## Metrics collector tick (`src/gpm-core/src/service.rs`)

`GpmService::collect_and_store_metrics_static` is embedded as a trace
of the observable steps it performs; fallible external calls (the Store
inserts) and the optional telemetry exporters are abstracted into a
tick environment.  Rust `?` on a failing insert becomes an early return
with the trace collected so far. -/

/-- One observable step of a collector tick. -/
inductive TickStep where
  | insertGpu (i : Nat)
  | recordOtelGpu (i : Nat)
  | updatePromGpu (i : Nat)
  | classify
  | insertProc (i : Nat)
  | updatePromProcs
  | recordOtelProcs
deriving DecidableEq, Repr

/-- The environment of one tick: which Store inserts succeed, which
telemetry exporters are configured (`telemetry.metrics` / `.prometheus`
being `Some`), and what the classifier returns for the samples. -/
structure TickEnv where
  insertGpuOk : Nat → Bool
  insertProcOk : Nat → Bool
  hasOtel : Bool
  hasProm : Bool
  classifyOut : List GpuMetrics → List ClassifiedProcess

/-- The per-sample loop: `insert_gpu_metrics(..)?`, then the OTel
record, then the Prometheus update.  A failing insert returns early
(`?`), dropping the rest of the loop. -/
def store_gpu_samples (env : TickEnv) : Nat → List GpuMetrics → List TickStep × Bool
  | _, [] => ([], true)
  | i, _ :: rest =>
      if env.insertGpuOk i then
        let tele := (if env.hasOtel then [TickStep.recordOtelGpu i] else []) ++
          (if env.hasProm then [TickStep.updatePromGpu i] else [])
        let r := store_gpu_samples env (i + 1) rest
        (TickStep.insertGpu i :: (tele ++ r.1), r.2)
      else ([TickStep.insertGpu i], false)

/-- The per-process loop: `insert_process_event(..)?` for each
classified process, again returning early on failure. -/
def store_proc_events (env : TickEnv) : Nat → List ClassifiedProcess →
    List TickStep × Bool
  | _, [] => ([], true)
  | i, _ :: rest =>
      if env.insertProcOk i then
        let r := store_proc_events env (i + 1) rest
        (TickStep.insertProc i :: r.1, r.2)
      else ([TickStep.insertProc i], false)

/-- `GpmService::collect_and_store_metrics_static` (the samples are
given, i.e. `collect_metrics` succeeded): per-sample writes, then the
classifier, then per-process writes, then the process telemetry
fan-out (Prometheus first, then OTel).  Returns the executed steps and
whether the tick finished without error. -/
def collect_and_store_metrics_static (env : TickEnv)
    (gpu_metrics : List GpuMetrics) : List TickStep × Bool :=
  let g := store_gpu_samples env 0 gpu_metrics
  if g.2 then
    let classified := env.classifyOut gpu_metrics
    let p := store_proc_events env 0 classified
    if p.2 then
      (g.1 ++ TickStep.classify :: p.1 ++
        (if env.hasProm then [TickStep.updatePromProcs] else []) ++
        (if env.hasOtel then [TickStep.recordOtelProcs] else []), true)
    else (g.1 ++ TickStep.classify :: p.1, false)
  else (g.1, false)

/-- One iteration of `GpmService::metrics_collector_loop`: run the tick
body; when it returns an error, log it (`error!("Failed to collect
metrics: ..")`) and carry on.  The second component records whether the
error was logged. -/
def metrics_collector_tick (env : TickEnv) (gpu_metrics : List GpuMetrics) :
    List TickStep × Bool :=
  let r := collect_and_store_metrics_static env gpu_metrics
  (r.1, !r.2)

/-- The collector loop over a schedule of ticks: every tick executes,
regardless of earlier ticks' errors. -/
def metrics_collector_loop (ticks : List (TickEnv × List GpuMetrics)) :
    List (List TickStep × Bool) :=
  ticks.map fun t => metrics_collector_tick t.1 t.2

/-- Steps a per-sample gpu loop can emit. -/
def isGpuStep : TickStep → Bool
  | TickStep.insertGpu _ => true
  | TickStep.recordOtelGpu _ => true
  | TickStep.updatePromGpu _ => true
  | _ => false

/-- A concrete classified process for the C6 counterexample. -/
def procW : ClassifiedProcess :=
  { pid := 1, name := ("w".data), category := WorkloadCategory.GeneralCompute
    gpu_memory_mb := 1, gpu_utilization := 1, command_line := ("w".data)
    exe_path := none }

/-- A tick environment whose Store rejects every gpu-sample insert while
everything else is available. -/
def envFailW : TickEnv :=
  { insertGpuOk := fun _ => false, insertProcOk := fun _ => true
    hasOtel := true, hasProm := true, classifyOut := fun _ => [procW] }

/-- A minimal concrete sample. -/
def sampleW : GpuMetrics :=
  { timestamp := 0, gpu_id := 0, name := ("g".data), utilization_gpu := 0
    utilization_memory := 0, memory_used := 0, memory_total := 0
    temperature := 0, power_usage := 0, processes := [] }

/-! ## Theorems -/

lemma is_ml_framework_eq_any (cmdline : List Char) :
    is_ml_framework cmdline =
      specFrameworkWords.any (fun kw => strHas (lowerStr cmdline) kw) := by
  simp [is_ml_framework, specFrameworkWords, Bool.or_assoc]

lemma is_python_ml_eq_any (name cmdline : List Char) :
    is_python_ml name cmdline =
      (strHas (lowerStr name) ("python".data) &&
        specMlKeywords.any (fun kw => strHas (lowerStr cmdline) kw)) := by
  unfold is_python_ml specMlKeywords
  cases h : strHas (lowerStr name) ("python".data) <;> simp [h]

lemma looks_like_inference_eq_any (cmdline : List Char) :
    looks_like_inference cmdline =
      specInferWords.any (fun kw => strHas (lowerStr cmdline) kw) := by
  simp [looks_like_inference, specInferWords, Bool.or_assoc]

/-- C8: classification applies its rules in order with first match
winning, exactly as the spec's rule list states (for every input the
source function agrees with the spec-worded mirror), and the three
literal scenarios map to LlmInference (S2), MlTraining (S3) and
LlmInference (S4). -/
theorem C8_classifier_rule_order :
    (∀ (ctx : ClassifierCtx) (name cmdline : List Char)
        (exe_path : Option (List Char)) (gpu_util : Nat),
      determine_category ctx name cmdline exe_path gpu_util =
        specCategory ctx name cmdline exe_path gpu_util) ∧
    determine_category ⟨[]⟩ ("ollama".data) ("/usr/bin/ollama serve".data) none 50 =
      WorkloadCategory.LlmInference ∧
    determine_category ⟨[]⟩ ("python3".data)
      ("python3 train.py --model transformer --epochs 10".data) none 80 =
      WorkloadCategory.MlTraining ∧
    determine_category ⟨[]⟩ ("python3".data)
      ("python3 inference.py --model llama --generate".data) none 60 =
      WorkloadCategory.LlmInference := by
  refine ⟨fun ctx name cmdline exe_path gpu_util => ?_, by decide, by decide, by decide⟩
  unfold determine_category specCategory
  rw [is_ml_framework_eq_any, is_python_ml_eq_any, looks_like_inference_eq_any]

/-- C10: the classifier never outputs `Unknown`: for every input the
result is one of the four other categories — the decision chain ends in
the `GeneralCompute` fallback, so `Unknown`, though a member of the
category type, is unreachable from `determine_category`. -/
theorem C10_unknown_unreachable :
    ∀ (ctx : ClassifierCtx) (name cmdline : List Char)
      (exe_path : Option (List Char)) (gpu_util : Nat),
      determine_category ctx name cmdline exe_path gpu_util ∈
        [WorkloadCategory.Gaming, WorkloadCategory.LlmInference,
         WorkloadCategory.MlTraining, WorkloadCategory.GeneralCompute] := by
  intro ctx name cmdline exe_path gpu_util
  unfold determine_category
  repeat' split
  all_goals simp

lemma lookupSession_updateSession (l : List (List Char × SessionTracker))
    (sid : List Char) (tr : SessionTracker) :
    lookupSession (updateSession l sid tr) sid = some tr := by
  induction l with
  | nil => simp [updateSession, lookupSession]
  | cons hd tl ih =>
      obtain ⟨k, v⟩ := hd
      by_cases h : k = sid
      · simp [updateSession, lookupSession, h]
      · simp [updateSession, lookupSession, h, ih]

/-- C1 counterexample: sending two `done=true` chunks for the same
`session_id` pushes TWO finalized sessions onto the completed buffer,
and the partial is still present in the active-sessions map afterwards
— the claimed "finalized exactly once, partial removed" behaviour does
not hold on the code. -/
theorem C1_counterexample_double_finalize :
    (let st1 := track_generation ⟨[], []⟩ ("s1".data) ("llama2".data) doneChunk 1000
     let st2 := track_generation st1 ("s1".data) ("llama2".data) doneChunk 2000
     st2.completed_sessions.length = 2 ∧
       (lookupSession st2.active_sessions ("s1".data)).isSome = true) := by
  decide

/-- C1 amended: every chunk with `done=true` (not only the first)
computes a finalized session and appends exactly one entry to the
completed buffer, and the partial is never removed from the
active-sessions map; hence a sequence of calls containing k chunks with
`done=true` for one `session_id` produces k finalized entries for that
id, not one. -/
theorem C1_every_done_chunk_finalizes (st : MonitorState)
    (session_id model : List Char) (resp : OllamaApiResponse) (now : Nat)
    (h : resp.done = true) :
    (track_generation st session_id model resp now).completed_sessions.length =
      st.completed_sessions.length + 1 ∧
    (lookupSession (track_generation st session_id model resp now).active_sessions
        session_id).isSome = true := by
  unfold track_generation
  rw [h]
  simp [lookupSession_updateSession]

/-- Closed witness for `C1_every_done_chunk_finalizes` at a concrete
state and chunk. -/
theorem C1_witness :
    (track_generation ⟨[], []⟩ ("s1".data) ("llama2".data) doneChunk 1000
      ).completed_sessions.length = 0 + 1 ∧
    (lookupSession (track_generation ⟨[], []⟩ ("s1".data) ("llama2".data) doneChunk 1000
      ).active_sessions ("s1".data)).isSome = true := by
  have h := C1_every_done_chunk_finalizes ⟨[], []⟩ ("s1".data) ("llama2".data)
    doneChunk 1000 (by decide)
  simpa using h

/-- C4: in the two-chunk scenario S5 the counter and duration fields are
overwritten from each chunk (the tracker after chunk 2 holds
`completion_tokens = 3` and `eval_duration_ns = 300000000`, the chunk-2
totals, not sums), and the finalized session has `model = "llama2"`,
`prompt_tokens = 10`, `completion_tokens = 3`, `total_tokens = 13`,
`tokens_per_second = 10`, `time_per_output_token_ms = 100` and
`time_to_first_token_ms` set. -/
theorem C4_s5_two_chunk_session :
    (let st1 := track_generation ⟨[], []⟩ ("s".data) ("llama2".data) s5Chunk1 1000
     let st2 := track_generation st1 ("s".data) ("llama2".data) s5Chunk2 1500
     ((lookupSession st2.active_sessions ("s".data)).map
        (fun tr => (tr.completion_tokens, tr.eval_duration_ns, tr.prompt_tokens)) =
       some (3, 300000000, 10)) ∧
     st2.completed_sessions =
       [{ id := ("s".data), start_time := 1000, end_time := some 1500
          model := ("llama2".data), prompt_tokens := 10, completion_tokens := 3
          total_tokens := 13, tokens_per_second := 10
          time_to_first_token_ms := some 0, time_per_output_token_ms := some 100 }]) := by
  simp only [track_generation, applyChunk, finalize_session, lookupSession,
    updateSession, s5Chunk1, s5Chunk2]
  norm_num

/-- C5 counterexample: a tracker with `completion_tokens = 1` but
`eval_duration_ns = 0` finalizes with `time_per_output_token_ms`
absent, although the claim requires it present whenever
`completion_tokens > 0`. -/
theorem C5_counterexample_zero_duration :
    (let tr : SessionTracker :=
      { session_id := ("s".data), model := ("m".data), start_time := 0
        first_token_time := none, prompt_tokens := 0, completion_tokens := 1
        prompt_eval_duration_ns := 0, eval_duration_ns := 0 }
     (finalize_session tr 7).time_per_output_token_ms = none ∧
       0 < tr.completion_tokens) := by
  decide

/-- C5 amended: `time_per_output_token_ms` is absent exactly when
`completion_tokens = 0` OR `eval_duration_ns = 0`; when both are
positive it equals `eval_duration_ns / 1e6 / completion_tokens`. -/
theorem C5_time_per_output_token (tracker : SessionTracker) (end_time : Nat) :
    ((finalize_session tracker end_time).time_per_output_token_ms = none ↔
      tracker.completion_tokens = 0 ∨ tracker.eval_duration_ns = 0) ∧
    (0 < tracker.completion_tokens → 0 < tracker.eval_duration_ns →
      (finalize_session tracker end_time).time_per_output_token_ms =
        some ((tracker.eval_duration_ns : ℚ) / 1000000 /
          (tracker.completion_tokens : ℚ))) := by
  unfold finalize_session
  constructor
  · by_cases hc : tracker.completion_tokens > 0 <;>
      by_cases hd : tracker.eval_duration_ns > 0 <;>
      simp [hc, hd] <;> omega
  · intro hc hd
    simp [hc, hd]

/-- Closed witness for `C5_time_per_output_token` at a concrete tracker. -/
theorem C5_witness :
    (finalize_session
      { session_id := ("s".data), model := ("m".data), start_time := 0
        first_token_time := none, prompt_tokens := 0, completion_tokens := 3
        prompt_eval_duration_ns := 0, eval_duration_ns := 300000000 } 9
      ).time_per_output_token_ms = some ((300000000 : ℚ) / 1000000 / (3 : ℚ)) := by
  exact (C5_time_per_output_token _ 9).2 (by decide) (by decide)

/-- C2 counterexample: a chunk consisting of the two lines `"A"` and
`"B"`, both of which decode successfully, feeds only ONE record (the
first) to the session tracker — not every successfully decoded line. -/
theorem C2_counterexample_first_line_only :
    ((((rustLines ("A\nB".data)).map trimStr).filter
        (fun l => !l.isEmpty)).filterMap decAB).length = 2 ∧
    (fedRecords decAB ("A\nB".data)).length = 1 ∧
    fedRecords decAB ("A\nB".data) = (decAB ("A".data)).toList := by
  refine ⟨by decide, by decide, by decide⟩

/-- C2 amended: for every chunk, exactly the FIRST line that trims
non-empty and decodes successfully is fed to the session tracker;
later decodable lines of the same chunk are discarded. -/
theorem C2_only_first_decoded_line_fed
    (dec : List Char → Option OllamaApiResponse) (text : List Char) :
    fedRecords dec text =
      ((((rustLines text).map trimStr).filter (fun l => !l.isEmpty)).filterMap
        dec).head?.toList := by
  unfold fedRecords parse_streaming_chunk
  congr 1
  induction rustLines text with
  | nil => simp [scanLines]
  | cons l ls ih =>
      by_cases he : (trimStr l).isEmpty
      · simpa [scanLines, he] using ih
      · cases hd : dec (trimStr l) <;>
          simp [scanLines, he, hd, ih]

/-- C7 counterexample: a request carrying a `transfer-encoding` header
has that header forwarded upstream — the request-side filter removes
only `host` and `content-length`, so the claimed removal of
`transfer-encoding` does not happen. -/
theorem C7_counterexample_transfer_encoding_kept :
    forward_request_headers
        [(("transfer-encoding".data), ⟨("chunked".data), true⟩)] =
      [(("transfer-encoding".data), ⟨("chunked".data), true⟩)] := by
  decide

/-- C7 amended: the forwarded request preserves method, path and query
(the upstream URL is backend ++ path ++ rendered query and the method is
reused unchanged), and a header with a convertible value is forwarded
iff its name is neither `host` nor `content-length`; in particular
`transfer-encoding` request headers are forwarded, not removed. -/
theorem C7_request_forwarding
    (headers : List (List Char × HeaderValue)) (n : List Char)
    (v : HeaderValue) (backend path q : List Char) :
    ((n, v) ∈ forward_request_headers headers ↔
      (n, v) ∈ headers ∧ n ≠ ("host".data) ∧ n ≠ ("content-length".data) ∧
        v.valid = true) ∧
    backend_url backend path (some q) = backend ++ path ++ ('?' :: q) ∧
    backend_url backend path none = backend ++ path := by
  refine ⟨?_, rfl, by simp [backend_url]⟩
  simp [forward_request_headers, List.mem_filter, and_assoc]

lemma sortedByMemDesc_cons (p : GpuProcess) (l : List GpuProcess) :
    sortedByMemDesc (p :: l) = true ↔
      (∀ b ∈ l.head?, b.used_gpu_memory ≤ p.used_gpu_memory) ∧
        sortedByMemDesc l = true := by
  cases l <;> simp [sortedByMemDesc]

lemma head?_insertDesc (p : GpuProcess) (l : List GpuProcess) :
    (insertDesc p l).head? = some p ∨ (insertDesc p l).head? = l.head? := by
  cases l with
  | nil => left; rfl
  | cons q qs =>
      by_cases h : q.used_gpu_memory ≤ p.used_gpu_memory <;>
        simp [insertDesc, h]

lemma sortedByMemDesc_insertDesc (p : GpuProcess) (l : List GpuProcess)
    (h : sortedByMemDesc l = true) :
    sortedByMemDesc (insertDesc p l) = true := by
  induction l with
  | nil => rfl
  | cons q qs ih =>
      obtain ⟨hhead, hqs⟩ := (sortedByMemDesc_cons q qs).mp h
      by_cases hq : q.used_gpu_memory ≤ p.used_gpu_memory
      · rw [insertDesc, if_pos hq]
        exact (sortedByMemDesc_cons p (q :: qs)).mpr ⟨by simpa using hq, h⟩
      · rw [insertDesc, if_neg hq]
        refine (sortedByMemDesc_cons q (insertDesc p qs)).mpr ⟨?_, ih hqs⟩
        intro b hb
        rcases head?_insertDesc p qs with h1 | h1
        · rw [h1] at hb
          simp only [Option.mem_def, Option.some_inj] at hb
          subst hb
          omega
        · rw [h1] at hb
          exact hhead b hb

lemma sortedByMemDesc_sortDesc (l : List GpuProcess) :
    sortedByMemDesc (sortDesc l) = true := by
  induction l with
  | nil => rfl
  | cons p ps ih => exact sortedByMemDesc_insertDesc p (sortDesc ps) ih

lemma length_insertDesc (p : GpuProcess) (l : List GpuProcess) :
    (insertDesc p l).length = l.length + 1 := by
  induction l with
  | nil => rfl
  | cons q qs ih =>
      by_cases h : q.used_gpu_memory ≤ p.used_gpu_memory <;>
        simp [insertDesc, h, ih]

lemma length_sortDesc (l : List GpuProcess) :
    (sortDesc l).length = l.length := by
  induction l with
  | nil => rfl
  | cons p ps ih => simp [sortDesc, length_insertDesc, ih]

/-- C3 counterexample: a device whose compute list and graphics list
both report PID 42 (with 100 and 50 bytes of memory) yields a process
list in which PID 42 appears TWICE; and the classifier's pid-keyed map
built from that sample keeps the graphics entry (the last one
inserted), not the compute entry. -/
theorem C3_counterexample_duplicate_pid :
    (let procs := get_running_processes cNameOf
       [{ pid := 42, used_gpu_memory := some 100 }]
       [{ pid := 42, used_gpu_memory := some 50 }]
     procs.map (fun p => p.pid) = [42, 42] ∧
       lookupPidMap
         (pid_to_metrics
           [{ timestamp := 0, gpu_id := 0, name := ("g".data)
              utilization_gpu := 7, utilization_memory := 0, memory_used := 0
              memory_total := 0, temperature := 0, power_usage := 0
              processes := procs }]) 42 = some (50, 7)) := by
  decide

/-- C3 amended: every `GpuSample` process list produced by the Driver
backend is sorted descending by `used_gpu_memory`, but PIDs are NOT
deduplicated: the output has exactly one entry per entry of the
compute and graphics lists, so a PID present in both appears twice. -/
theorem C3_sorted_but_no_dedup (nameOf : Nat → List Char)
    (compute_processes graphics_processes : List RawProc) :
    sortedByMemDesc
      (get_running_processes nameOf compute_processes graphics_processes) = true ∧
    (get_running_processes nameOf compute_processes graphics_processes).length =
      compute_processes.length + graphics_processes.length := by
  unfold get_running_processes
  exact ⟨sortedByMemDesc_sortDesc _, by simp [length_sortDesc]⟩

/-- C9: parsing the S1 probe line yields exactly the claimed sample
(memory in MiB converted to bytes, power `250.5` truncated to `250`,
empty process list), and any line with fewer than 8 comma-separated
fields yields no sample. -/
theorem C9_csv_probe_parse :
    parse_nvidia_smi_line 0 s1Line =
      some { timestamp := 0, gpu_id := 0
             name := ("NVIDIA GeForce RTX 3080".data)
             utilization_gpu := 45, utilization_memory := 30
             memory_used := 8589934592, memory_total := 10737418240
             temperature := 65, power_usage := 250, processes := [] } ∧
    (∀ (now : Nat) (line : List Char),
      ((splitSep ',' line).map trimStr).length < 8 →
        parse_nvidia_smi_line now line = none) := by
  constructor
  · have hdec : parseDecimal ('2' :: '5' :: '0' :: '.' :: '5' :: []) =
        some ((501 : ℚ) / 2) := by
      have hsign : stripSign ("250.5".data) = (false, ("250.5".data)) := by decide
      have hsplit : splitSep '.' ("250.5".data) = [("250".data), ("5".data)] := by
        decide
      have hip : parseDigitsGo ("250".data) 0 = some 250 := by decide
      have hfp : parseDigitsGo ("5".data) 0 = some 5 := by decide
      have hcond : ((("250".data).all Char.isDigit && ("5".data).all Char.isDigit) &&
          !(("250".data).isEmpty && ("5".data).isEmpty)) = true := by decide
      show parseDecimal ("250.5".data) = some ((501 : ℚ) / 2)
      unfold parseDecimal
      rw [hsign]
      simp only
      rw [hsplit]
      simp only [hcond, hip, hfp]
      norm_num
    have hpow : f64_as_u32 ((501 : ℚ) / 2) = 250 := by
      have hfl : ⌊((501 : ℚ) / 2)⌋ = 250 := by norm_num
      unfold f64_as_u32 U32_MAX
      rw [if_neg (by norm_num), hfl]
      decide
    have h0 : parseUnsigned U32_MAX ('0' :: []) = some 0 := by decide
    have h45 : parseUnsigned U32_MAX ('4' :: '5' :: []) = some 45 := by decide
    have h30 : parseUnsigned U32_MAX ('3' :: '0' :: []) = some 30 := by decide
    have h8192 : parseUnsigned U64_MAX ('8' :: '1' :: '9' :: '2' :: []) =
        some 8192 := by decide
    have h10240 : parseUnsigned U64_MAX ('1' :: '0' :: '2' :: '4' :: '0' :: []) =
        some 10240 := by decide
    have h65 : parseUnsigned U32_MAX ('6' :: '5' :: []) = some 65 := by decide
    have hparts : (splitSep ',' s1Line).map trimStr =
        [("0".data), ("NVIDIA GeForce RTX 3080".data), ("45".data), ("30".data),
         ("8192".data), ("10240".data), ("65".data), ("250.5".data)] := by
      decide
    unfold parse_nvidia_smi_line
    rw [hparts]
    rw [if_neg (by decide)]
    simp only [List.getD, List.get?, Option.getD, h0, h45, h30, h8192, h10240,
      h65, hdec, hpow]
  · intro now line h
    unfold parse_nvidia_smi_line
    simp only [h, if_true]

/-- Closed witness for the short-line clause of `C9_csv_probe_parse` at
a concrete two-field line. -/
theorem C9_witness :
    ((splitSep ',' ("a,b".data)).map trimStr).length < 8 ∧
    parse_nvidia_smi_line 5 ("a,b".data) = none :=
  ⟨by decide, C9_csv_probe_parse.2 5 ("a,b".data) (by decide)⟩

lemma store_gpu_samples_all_gpu (env : TickEnv) (i : Nat) (l : List GpuMetrics) :
    ((store_gpu_samples env i l).1.all isGpuStep) = true := by
  induction l generalizing i with
  | nil => rfl
  | cons m rest ih =>
      unfold store_gpu_samples
      by_cases h : env.insertGpuOk i <;>
        cases hO : env.hasOtel <;> cases hP : env.hasProm <;>
          simp [h, hO, hP, isGpuStep, ih]

/-- C6 counterexample: with two samples and a Store whose first insert
fails, the tick executes ONLY that failing insert — the second sample's
write, the classifier run, the per-process writes and the telemetry
fan-out of the same tick are all skipped (the error is logged by the
collector loop).  The claim that they still execute within the tick is
false. -/
theorem C6_counterexample_tick_aborted :
    collect_and_store_metrics_static envFailW [sampleW, sampleW] =
      ([TickStep.insertGpu 0], false) ∧
    metrics_collector_tick envFailW [sampleW, sampleW] =
      ([TickStep.insertGpu 0], true) := by
  decide

/-- C6 amended: a failing gpu-sample Store insert aborts the remainder
of that tick via `?`: the tick's trace is exactly the per-sample prefix
collected so far — the classifier does not run and no per-process write
or process telemetry step executes in that tick; the collector loop
logs the error, and every scheduled tick still executes (the next tick
retries). -/
theorem C6_insert_failure_drops_rest_of_tick (env : TickEnv)
    (samples : List GpuMetrics)
    (h : (store_gpu_samples env 0 samples).2 = false) :
    collect_and_store_metrics_static env samples =
      ((store_gpu_samples env 0 samples).1, false) ∧
    TickStep.classify ∉ (collect_and_store_metrics_static env samples).1 ∧
    (∀ j, TickStep.insertProc j ∉ (collect_and_store_metrics_static env samples).1) ∧
    TickStep.updatePromProcs ∉ (collect_and_store_metrics_static env samples).1 ∧
    TickStep.recordOtelProcs ∉ (collect_and_store_metrics_static env samples).1 ∧
    metrics_collector_tick env samples =
      ((store_gpu_samples env 0 samples).1, true) ∧
    (∀ ticks, (metrics_collector_loop ticks).length = ticks.length) := by
  have hcoll : collect_and_store_metrics_static env samples =
      ((store_gpu_samples env 0 samples).1, false) := by
    simp only [collect_and_store_metrics_static]
    rw [h]
    simp
  have hall := store_gpu_samples_all_gpu env 0 samples
  rw [List.all_eq_true] at hall
  have hnot : ∀ s, isGpuStep s = false →
      s ∉ (collect_and_store_metrics_static env samples).1 := by
    intro s hs hmem
    rw [hcoll] at hmem
    have := hall s hmem
    rw [hs] at this
    cases this
  refine ⟨hcoll, hnot _ rfl, fun j => hnot _ rfl, hnot _ rfl, hnot _ rfl, ?_, ?_⟩
  · simp only [metrics_collector_tick, hcoll, Bool.not_false]
  · intro ticks
    unfold metrics_collector_loop
    simp

/-- Closed witness for `C6_insert_failure_drops_rest_of_tick` at the
concrete failing environment. -/
theorem C6_witness :
    collect_and_store_metrics_static envFailW [sampleW] =
      ((store_gpu_samples envFailW 0 [sampleW]).1, false) ∧
    TickStep.classify ∉ (collect_and_store_metrics_static envFailW [sampleW]).1 := by
  have h := C6_insert_failure_drops_rest_of_tick envFailW [sampleW] (by decide)
  exact ⟨h.1, h.2.1⟩

end GPM
